import Mathlib

/-!
Verification development for the azurefilebroker service broker
(cloudfoundry-attic/azurefilebroker).

The broker core (azurefilebroker.go) orchestrates Provision / Deprovision /
Bind / Unbind against a persistent store and an Azure Storage Account
gateway, maintaining per-instance file-share reference counts.  This file
embeds the broker core and the file-backed store shallowly:

* Go maps become association lists (`List (String × α)`) with Go-map
  update/erase/lookup semantics (only lookups are observed, so ordering of
  entries is irrelevant).
* The Azure gateway is an oracle (`Gateway`) giving every call's result for
  the duration of one broker operation; every gateway invocation and store
  mutation is recorded in an event log.
* Go errors become an explicit error type (`BErr`); the dedicated brokerapi
  error values keep their own constructors, wrapped `fmt.Errorf` messages
  become `BErr.msg`.
* In Go, `ServiceInstance.FileShareList` is a map and therefore aliased with
  the store's copy; the embedding uses value semantics plus the explicit
  `updateServiceInstance` call the code makes.  All claims observe states
  on which the two coincide (error paths that skip the update also make no
  map mutation).
* `StorageAccount` construction (`NewStorageAccount`) performs only pure
  struct initialisation and client setup for the argument shapes reachable
  from Bind/Unbind (no SKU set), so it is modelled as succeeding there; on
  the Provision path its SKU validation is modelled.
* The md5 volume-id hash of Bind is not modelled (no claim observes it);
  the returned binding keeps the fields the code computes without it.
-/

namespace AzureFileBroker

/-! ## Association-list maps with Go map semantics -/

def mapLookup {α : Type} : List (String × α) → String → Option α
  | [], _ => none
  | (k, v) :: rest, key => if k = key then some v else mapLookup rest key

def mapSet {α : Type} : List (String × α) → String → α → List (String × α)
  | [], key, v => [(key, v)]
  | (k, w) :: rest, key, v =>
      if k = key then (k, v) :: rest else (k, w) :: mapSet rest key v

def mapErase {α : Type} : List (String × α) → String → List (String × α)
  | [], _ => []
  | (k, w) :: rest, key =>
      if k = key then mapErase rest key else (k, w) :: mapErase rest key

/-! ## Data model (azurefilebroker.go) -/

/-- `FileShare` record embedded per service instance (azurefilebroker.go).
`Count` is a Go `int`, modelled as `Int`. -/
structure FileShare where
  isCreated : Bool
  count : Int
  url : String
  deriving Repr, DecidableEq

/-- `ServiceInstance` (azurefilebroker.go); `FileShareList` keyed by share name. -/
structure ServiceInstance where
  serviceID : String
  planID : String
  organizationGUID : String
  spaceGUID : String
  subscriptionID : String
  resourceGroupName : String
  storageAccountName : String
  useHTTPS : Bool
  storageAccountStatus : String
  isCreatedStorageAccount : Bool
  fileShareList : List (String × FileShare)
  deriving Repr, DecidableEq

/-- `BindOptions` decoded from the raw bind parameters (azurefilebroker.go). -/
structure BindOptions where
  fileShareName : String
  uid : String
  gid : String
  fileMode : String
  dirMode : String
  readonly : Bool
  vers : String
  mount : String
  deriving Repr, DecidableEq

/-- Raw JSON parameters of a request: either undecodable or a decoded value. -/
inductive RawParams (α : Type) where
  | invalid
  | params (value : α)
  deriving Repr, DecidableEq

/-- `brokerapi.BindDetails`: the fields the broker core reads. -/
structure BindDetails where
  appGUID : String
  planID : String
  serviceID : String
  rawParameters : RawParams BindOptions
  deriving Repr, DecidableEq

/-- Broker-visible errors: the dedicated `brokerapi` error values plus
wrapped `fmt.Errorf` messages. -/
inductive BErr where
  | rawParamsInvalid
  | appGuidNotProvided
  | instanceAlreadyExists
  | instanceDoesNotExist
  | bindingAlreadyExists
  | bindingDoesNotExist
  | msg (s : String)
  deriving Repr, DecidableEq

/-- Rendering of Go's `%q` format verb. -/
def quote (s : String) : String := "\"" ++ s ++ "\""

/-- `json.NewDecoder(...).Decode(&bindOptions)` on stored raw parameters. -/
def decodeBindOptions : RawParams BindOptions → Except BErr BindOptions
  | .invalid => .error .rawParamsInvalid
  | .params o => .ok o

/-! ## Persistent store state (store_file.go: the in-memory file store) -/

/-- `DynamicState` of the file store: instance id → ServiceInstance and
binding id → BindDetails (the field is called `ShareMap` in the source). -/
structure DynamicState where
  instanceMap : List (String × ServiceInstance)
  shareMap : List (String × BindDetails)
  deriving Repr, DecidableEq

def retrieveServiceInstance (s : DynamicState) (id : String) :
    Except BErr ServiceInstance :=
  match mapLookup s.instanceMap id with
  | some inst => .ok inst
  | none => .error (.msg (id ++ " Not Found."))

def retrieveBindingDetails (s : DynamicState) (id : String) :
    Except BErr BindDetails :=
  match mapLookup s.shareMap id with
  | some det => .ok det
  | none => .error (.msg (id ++ " Not Found."))

def createServiceInstance (s : DynamicState) (id : String)
    (inst : ServiceInstance) : DynamicState :=
  { s with instanceMap := mapSet s.instanceMap id inst }

def createBindingDetails (s : DynamicState) (id : String)
    (det : BindDetails) : DynamicState :=
  { s with shareMap := mapSet s.shareMap id det }

def updateServiceInstance (s : DynamicState) (id : String)
    (inst : ServiceInstance) : Except BErr DynamicState :=
  match mapLookup s.instanceMap id with
  | some _ => .ok { s with instanceMap := mapSet s.instanceMap id inst }
  | none => .error (.msg (id ++ " Not Found."))

def deleteServiceInstance (s : DynamicState) (id : String) :
    Except BErr DynamicState :=
  match mapLookup s.instanceMap id with
  | some _ => .ok { s with instanceMap := mapErase s.instanceMap id }
  | none => .error (.msg (id ++ " Not Found."))

def deleteBindingDetails (s : DynamicState) (id : String) :
    Except BErr DynamicState :=
  match mapLookup s.shareMap id with
  | some _ => .ok { s with shareMap := mapErase s.shareMap id }
  | none => .error (.msg (id ++ " Not Found."))

def isServiceInstanceConflict (s : DynamicState) (id : String) : Bool :=
  (mapLookup s.instanceMap id).isSome

def isBindingConflict (s : DynamicState) (id : String) : Bool :=
  (mapLookup s.shareMap id).isSome

/-! ## Configuration -/

/-- `ControlConfig` policy flags (constructed in main.go via `NewControlConfig`). -/
structure ControlConfig where
  allowCreateStorageAccount : Bool
  allowCreateFileShare : Bool
  allowDeleteStorageAccount : Bool
  allowDeleteFileShare : Bool
  deriving Repr, DecidableEq

/-- Modelled from the spec: the mount-options configuration
(`Config.mount` with `Copy`/`SetEntries`/`MakeConfig`) lives in a repository
file absent from src (only its callers appear).  Per the spec, `SetEntries`
merges the caller's per-binding mount options onto the broker's global
defaults and fails when an option is not in the allowed-options list (a
fixed default cannot be overridden by the caller). -/
structure MountConfig where
  allowed : List String
  options : List (String × String)
  deriving Repr, DecidableEq

def MountConfig.setEntries (m : MountConfig) (entries : List (String × String)) :
    Except BErr MountConfig :=
  if entries.all (fun p => m.allowed.contains p.1) then
    .ok { m with options := entries.foldl (fun acc p => mapSet acc p.1 p.2) m.options }
  else
    .error (.msg "not allowed in mount config")

def MountConfig.makeConfig (m : MountConfig) : List (String × String) := m.options

/-- `BindOptions.ToMap` (azurefilebroker.go); `%#v` on a Go string renders
it quoted. -/
def BindOptions.toMap (o : BindOptions) : List (String × String) :=
  (if o.uid = "" then [] else [("uid", quote o.uid)]) ++
  (if o.gid = "" then [] else [("gid", quote o.gid)]) ++
  (if o.fileMode = "" then [] else [("file_mode", o.fileMode)]) ++
  (if o.dirMode = "" then [] else [("dir_mode", o.dirMode)]) ++
  (if o.readonly then [("readonly", "true")] else []) ++
  (if o.vers = "" then [] else [("vers", o.vers)])

/-! ## Azure Storage Account gateway oracle and event log -/

/-- Result oracle for the Azure gateway calls made during one broker
operation (azure.go: `StorageAccount` methods).  Errors carry the message
that Go's `%v` would render. -/
structure Gateway where
  hasFileShare : String → Except String Bool
  createFileShare : String → Except String Unit
  deleteFileShare : String → Except String Unit
  getShareURL : String → Except String String
  getAccessKey : Except String String
  accountExists : Except String Bool
  createAccount : Except String Unit
  deleteAccount : Except String Unit

/-- Observable calls a broker operation makes against the gateway and the
mutating store methods. -/
inductive Event where
  | gwHasFileShare (share : String)
  | gwCreateFileShare (share : String)
  | gwDeleteFileShare (share : String)
  | gwGetShareURL (share : String)
  | gwGetAccessKey
  | gwAccountExists
  | gwCreateAccount
  | gwDeleteAccount
  | stCreateInstance (id : String)
  | stUpdateInstance (id : String)
  | stDeleteInstance (id : String)
  | stCreateBinding (id : String)
  | stDeleteBinding (id : String)
  deriving Repr, DecidableEq

/-! ## Broker core — Bind and the share reconciliation (azurefilebroker.go) -/

/-- `handleBindShare` (azurefilebroker.go lines 464-524): reconcile the named
file share of the instance.  Always begins with the `HasFileShare` existence
check; a share already present locally is incremented in place, an unknown
but remotely existing share is adopted (`IsCreated = false`, count 1), a
remotely missing share is created when policy allows (`IsCreated = true`,
count 1).  Returns the updated instance and the gateway calls issued. -/
def handleBindShare (cfg : ControlConfig) (gw : Gateway) (inst : ServiceInstance)
    (shareName : String) : Except BErr ServiceInstance × List Event :=
  match gw.hasFileShare shareName with
  | .error e =>
      (.error (.msg ("Failed to check whether the file share " ++ quote shareName ++
        " exists: " ++ e)), [.gwHasFileShare shareName])
  | .ok true =>
      match mapLookup inst.fileShareList shareName with
      | some fs =>
          let fsl := mapSet inst.fileShareList shareName { fs with count := fs.count + 1 }
          (.ok { inst with fileShareList := fsl }, [.gwHasFileShare shareName])
      | none =>
          match gw.getShareURL shareName with
          | .error e => (.error (.msg e), [.gwHasFileShare shareName, .gwGetShareURL shareName])
          | .ok url =>
              let fsl := mapSet inst.fileShareList shareName
                { isCreated := false, count := 1, url := url }
              (.ok { inst with fileShareList := fsl },
               [.gwHasFileShare shareName, .gwGetShareURL shareName])
  | .ok false =>
      if !cfg.allowCreateFileShare then
        (.error (.msg ("The file share " ++ quote shareName ++
          " does not exist in the storage account " ++ quote inst.storageAccountName ++
          " and the administrator does not allow to create it automatically")),
         [.gwHasFileShare shareName])
      else
        match gw.createFileShare shareName with
        | .error e =>
            (.error (.msg ("Failed to create file share " ++ quote shareName ++
              " in the storage account " ++ quote inst.storageAccountName ++ ": " ++ e)),
             [.gwHasFileShare shareName, .gwCreateFileShare shareName])
        | .ok _ =>
            match gw.getShareURL shareName with
            | .error e =>
                (.error (.msg e),
                 [.gwHasFileShare shareName, .gwCreateFileShare shareName,
                  .gwGetShareURL shareName])
            | .ok url =>
                let fsl := mapSet inst.fileShareList shareName
                  { isCreated := true, count := 1, url := url }
                (.ok { inst with fileShareList := fsl },
                 [.gwHasFileShare shareName, .gwCreateFileShare shareName,
                  .gwGetShareURL shareName])

def readOnlyToMode (ro : Bool) : String := if ro then "r" else "rw"

/-- `evaluateContainerPath`: caller-supplied mount override, or
`path.Join(defaultContainerPath, volID)`. -/
def evaluateContainerPath (options : BindOptions) (volID : String) : String :=
  if options.mount ≠ "" then options.mount else "/var/vcap/data/" ++ volID

/-- The volume mount descriptor `Bind` returns: the fields computed by the
code aside from the md5 volume-id hash (which no claim observes).
`mountConfig` carries the merged mount options plus the `source`,
`username` and `password` entries the code adds. -/
structure Binding where
  containerDir : String
  mode : String
  mountConfig : List (String × String)
  deriving Repr, DecidableEq

/-- `Broker.Bind` (azurefilebroker.go lines 351-461).  Validation, mount
option merging, instance retrieval, share reconciliation, instance update,
binding-conflict check (after the update!), binding-details creation, and
access-key retrieval, in source order.  Returns the result, the store state
after the call, and the event log. -/
def bind (cfg : ControlConfig) (mount : MountConfig) (gw : Gateway)
    (st : DynamicState) (instanceID bindingID : String) (details : BindDetails) :
    Except BErr Binding × DynamicState × List Event :=
  if details.appGUID = "" then (.error .appGuidNotProvided, st, [])
  else
    match decodeBindOptions details.rawParameters with
    | .error _ => (.error .rawParamsInvalid, st, [])
    | .ok opts =>
      if opts.fileShareName = "" then
        (.error (.msg ("Missing required parameters: " ++ quote "share")), st, [])
      else
        match mount.setEntries opts.toMap with
        | .error e => (.error e, st, [])
        | .ok mc =>
          match retrieveServiceInstance st instanceID with
          | .error _ => (.error .instanceDoesNotExist, st, [])
          | .ok inst =>
            match handleBindShare cfg gw inst opts.fileShareName with
            | (.error e, ev) => (.error e, st, ev)
            | (.ok inst', ev) =>
              match updateServiceInstance st instanceID inst' with
              | .error e => (.error e, st, ev ++ [.stUpdateInstance instanceID])
              | .ok st1 =>
                if isBindingConflict st1 bindingID then
                  (.error .bindingAlreadyExists, st1, ev ++ [.stUpdateInstance instanceID])
                else
                  let st2 := createBindingDetails st1 bindingID details
                  let source :=
                    match mapLookup inst'.fileShareList opts.fileShareName with
                    | some fs => fs.url
                    | none => ""
                  let mcMap :=
                    mapSet (mapSet mc.makeConfig "source" source)
                      "username" inst'.storageAccountName
                  match gw.getAccessKey with
                  | .error e =>
                      (.error (.msg e), st2,
                       ev ++ [.stUpdateInstance instanceID, .stCreateBinding bindingID,
                              .gwGetAccessKey])
                  | .ok key =>
                      (.ok { containerDir := evaluateContainerPath opts instanceID,
                             mode := readOnlyToMode opts.readonly,
                             mountConfig := mapSet mcMap "password" key },
                       st2,
                       ev ++ [.stUpdateInstance instanceID, .stCreateBinding bindingID,
                              .gwGetAccessKey])

/-! ## Broker core — Unbind (azurefilebroker.go) -/

/-- `handleUnbindShare` (azurefilebroker.go lines 586-627): decrement the
named share's count; on a positive remainder write the record back, on
reaching zero delete the remote share when it was broker-created and policy
allows (aborting with an error — before removing the local record — when
that gateway call fails), then drop the local record. -/
def handleUnbindShare (cfg : ControlConfig) (gw : Gateway) (inst : ServiceInstance)
    (shareName instanceID : String) : Except BErr ServiceInstance × List Event :=
  match mapLookup inst.fileShareList shareName with
  | none =>
      (.error (.msg ("Cannot find the file share " ++ quote shareName ++
        " in the service instance " ++ quote instanceID)), [])
  | some fs0 =>
      let fs : FileShare := { fs0 with count := fs0.count - 1 }
      if fs.count > 0 then
        (.ok { inst with fileShareList := mapSet inst.fileShareList shareName fs }, [])
      else
        if fs.isCreated && cfg.allowDeleteFileShare then
          match gw.deleteFileShare shareName with
          | .error e =>
              (.error (.msg ("Faied to delete the file share " ++ quote shareName ++
                " in the storage account " ++ quote inst.storageAccountName ++ ": " ++ e)),
               [.gwDeleteFileShare shareName])
          | .ok _ =>
              (.ok { inst with fileShareList := mapErase inst.fileShareList shareName },
               [.gwDeleteFileShare shareName])
        else
          (.ok { inst with fileShareList := mapErase inst.fileShareList shareName }, [])

/-- `Broker.Unbind` (azurefilebroker.go lines 537-584).  Retrieves instance
and binding details, decodes the stored bind parameters, runs
`handleUnbindShare` — swallowing its error (`return nil`), which also skips
the instance update and the binding-details deletion — then persists the
instance and deletes the binding-details record. -/
def unbind (cfg : ControlConfig) (gw : Gateway) (st : DynamicState)
    (instanceID bindingID : String) :
    Except BErr Unit × DynamicState × List Event :=
  match retrieveServiceInstance st instanceID with
  | .error _ => (.error .instanceDoesNotExist, st, [])
  | .ok inst =>
    match retrieveBindingDetails st bindingID with
    | .error _ => (.error .bindingDoesNotExist, st, [])
    | .ok det =>
      match decodeBindOptions det.rawParameters with
      | .error _ => (.error .rawParamsInvalid, st, [])
      | .ok opts =>
        match handleUnbindShare cfg gw inst opts.fileShareName instanceID with
        | (.error _, ev) => (.ok (), st, ev)
        | (.ok inst', ev) =>
          match updateServiceInstance st instanceID inst' with
          | .error _ =>
              (.error (.msg ("Faied to update service instance in the store for " ++
                quote instanceID)), st, ev ++ [.stUpdateInstance instanceID])
          | .ok st1 =>
            match deleteBindingDetails st1 bindingID with
            | .error e =>
                (.error e, st1,
                 ev ++ [.stUpdateInstance instanceID, .stDeleteBinding bindingID])
            | .ok st2 =>
                (.ok (), st2,
                 ev ++ [.stUpdateInstance instanceID, .stDeleteBinding bindingID])

/-! ## Broker core — Provision (azurefilebroker.go) -/

/-- `Configuration` decoded from the raw provision parameters. -/
structure Configuration where
  subscriptionID : String
  resourceGroupName : String
  storageAccountName : String
  useHTTPS : String
  skuName : String
  location : String
  customDomainName : String
  useSubDomain : String
  enableEncryption : String
  deriving Repr, DecidableEq

/-- `Configuration.Validate` (azurefilebroker.go lines 44-60). -/
def Configuration.validate (c : Configuration) : Except BErr Unit :=
  let missingKeys :=
    (if c.subscriptionID = "" then ["subscription_id"] else []) ++
    (if c.resourceGroupName = "" then ["resource_group_name"] else []) ++
    (if c.storageAccountName = "" then ["storage_account_name"] else [])
  if missingKeys.length > 0 then
    .error (.msg ("Missing required parameters: " ++ String.intercalate ", " missingKeys))
  else
    .ok ()

/-- `strconv.ParseBool`. -/
def goParseBool : String → Option Bool
  | "1" | "t" | "T" | "TRUE" | "true" | "True" => some true
  | "0" | "f" | "F" | "FALSE" | "false" | "False" => some false
  | _ => none

/-- The storage-account coordinates the broker keeps (azure.go
`StorageAccount`, restricted to the fields the core observes). -/
structure StorageAccount where
  subscriptionID : String
  resourceGroupName : String
  storageAccountName : String
  useHTTPS : Bool
  isCreatedStorageAccount : Bool
  deriving Repr, DecidableEq

def validSkuNames : List String :=
  ["Standard_GRS", "Standard_LRS", "Standard_RAGRS", "Standard_ZRS"]

/-- `NewStorageAccount` (azure.go): pure struct construction; fails only on
an invalid SKU name. -/
def newStorageAccount (c : Configuration) : Except BErr StorageAccount :=
  if c.skuName ≠ "" && !(validSkuNames.contains c.skuName) then
    .error (.msg ("The SkuName " ++ quote c.skuName ++
      " to create the storage account is invalid. It must be Standard_GRS, Standard_LRS, Standard_RAGRS or Standard_ZRS"))
  else
    .ok { subscriptionID := c.subscriptionID,
          resourceGroupName := c.resourceGroupName,
          storageAccountName := c.storageAccountName,
          useHTTPS := (goParseBool c.useHTTPS).getD true,
          isCreatedStorageAccount := false }

/-- `Broker.getStorageAccount` (azurefilebroker.go lines 267-297): reuse an
existing account, otherwise create it when policy allows, marking it
broker-created. -/
def getStorageAccount (cfg : ControlConfig) (gw : Gateway) (c : Configuration) :
    Except BErr StorageAccount × List Event :=
  match newStorageAccount c with
  | .error e => (.error e, [])
  | .ok sa =>
    match gw.accountExists with
    | .error e =>
        (.error (.msg ("Failed to check whether storage account exists: " ++ e)),
         [.gwAccountExists])
    | .ok true => (.ok sa, [.gwAccountExists])
    | .ok false =>
        if !cfg.allowCreateStorageAccount then
          (.error (.msg ("The storage account " ++ quote sa.storageAccountName ++
            " does not exist under the resource group " ++ quote sa.resourceGroupName ++
            " in the subscription " ++ quote sa.subscriptionID ++
            " and the administrator does not allow to create it automatically")),
           [.gwAccountExists])
        else
          match gw.createAccount with
          | .error e =>
              (.error (.msg ("Failed to create the storage account " ++
                quote sa.storageAccountName ++ ": " ++ e)),
               [.gwAccountExists, .gwCreateAccount])
          | .ok _ =>
              (.ok { sa with isCreatedStorageAccount := true },
               [.gwAccountExists, .gwCreateAccount])

/-- `brokerapi.ProvisionDetails`: the fields the broker core reads. -/
structure ProvisionDetails where
  serviceID : String
  planID : String
  organizationGUID : String
  spaceGUID : String
  rawParameters : RawParams Configuration
  deriving Repr, DecidableEq

/-- `Broker.Provision` (azurefilebroker.go lines 198-265): decode, apply
default subscription/resource-group, validate, resolve the storage account,
reject a duplicate instance id (`IsServiceInstanceConflict`, checked before
`CreateServiceInstance`), then persist the new instance with an empty share
map. -/
def provision (cfg : ControlConfig) (defaultSubscriptionID defaultResourceGroupName : String)
    (gw : Gateway) (st : DynamicState) (instanceID : String) (details : ProvisionDetails) :
    Except BErr Unit × DynamicState × List Event :=
  match details.rawParameters with
  | .invalid => (.error .rawParamsInvalid, st, [])
  | .params c0 =>
    let c1 := if c0.subscriptionID = "" then
        { c0 with subscriptionID := defaultSubscriptionID } else c0
    let c := if c1.resourceGroupName = "" then
        { c1 with resourceGroupName := defaultResourceGroupName } else c1
    match c.validate with
    | .error e => (.error e, st, [])
    | .ok _ =>
      match getStorageAccount cfg gw c with
      | (.error e, ev) => (.error e, st, ev)
      | (.ok sa, ev) =>
        let inst : ServiceInstance :=
          { serviceID := details.serviceID,
            planID := details.planID,
            organizationGUID := details.organizationGUID,
            spaceGUID := details.spaceGUID,
            subscriptionID := sa.subscriptionID,
            resourceGroupName := sa.resourceGroupName,
            storageAccountName := sa.storageAccountName,
            useHTTPS := sa.useHTTPS,
            storageAccountStatus := "",
            isCreatedStorageAccount := sa.isCreatedStorageAccount,
            fileShareList := [] }
        if isServiceInstanceConflict st instanceID then
          (.error .instanceAlreadyExists, st, ev)
        else
          (.ok (), createServiceInstance st instanceID inst,
           ev ++ [.stCreateInstance instanceID])

/-! ## Broker core — LastOperation (azurefilebroker.go) -/

/-- `Broker.LastOperation` (azurefilebroker.go lines 633-645): the switch on
`operationData` has only a default case, which returns the
"unrecognized operationData" error. -/
def lastOperation (st : DynamicState) (instanceID operationData : String) :
    Except BErr Unit :=
  match operationData with
  | _ => .error (.msg "unrecognized operationData")

/-! ## SQL-backed store: advisory lock acquisition (store_sql.go) -/

/-- Package constant `timeoutInSeconds = 60` declared with the Azure file
request options (azure.go of the SQL-era sources). -/
def timeoutInSeconds : Nat := 60

/-- Package constant `lockTimeoutInSeconds = 30`: the timeout Bind and
Unbind pass to `GetLockForUpdate` in the SQL-era broker. -/
def lockTimeoutInSeconds : Nat := 30

/-- Outcome of `stmt.QueryRow(...).Scan(&row)` on the advisory-lock query. -/
inductive QueryRowResult where
  | row (value : String)
  | noRows
  | fail (e : String)
  deriving Repr, DecidableEq

/-- Arguments actually bound into the advisory-lock query. -/
structure LockCall where
  lockName : String
  lockTimeout : Nat
  deriving Repr, DecidableEq

/-- `SqlStore.GetLockForUpdate` (store_sql.go lines 257-277).  The database
is an oracle from the bound query arguments to the row result.  Note: the
source binds the package constant `timeoutInSeconds` into the query, not its
own `seconds` parameter, while the timeout error message reports `seconds`. -/
def getLockForUpdate (db : String → Nat → QueryRowResult) (lockName : String)
    (seconds : Nat) : Except String Unit × LockCall :=
  let issued : LockCall := { lockName := lockName, lockTimeout := timeoutInSeconds }
  match db lockName timeoutInSeconds with
  | .row _ => (.ok (), issued)
  | .noRows =>
      (.error ("Cannot get the lock " ++ quote lockName ++ " for update in " ++
        toString seconds ++ " seconds"), issued)
  | .fail e => (.error e, issued)

/-! ## Call sequences -/

/-- A sequence of Bind calls, each with its own binding id and details,
stopping at the first failure. -/
def bindSeq (cfg : ControlConfig) (mount : MountConfig) (gw : Gateway)
    (instanceID : String) :
    List (String × BindDetails) → DynamicState → Except BErr DynamicState
  | [], st => .ok st
  | (bid, det) :: rest, st =>
      match bind cfg mount gw st instanceID bid det with
      | (.ok _, st', _) => bindSeq cfg mount gw instanceID rest st'
      | (.error e, _, _) => .error e

/-- A sequence of Bind calls where the first call may see different gateway
answers (`gw0`) than the later ones (`gw`) — the claims fix the gateway
behaviour only from the second bind on. -/
def runBinds (cfg : ControlConfig) (mount : MountConfig) (gw0 gw : Gateway)
    (instanceID : String) :
    List (String × BindDetails) → DynamicState → Except BErr DynamicState
  | [], st => .ok st
  | (bid, det) :: rest, st =>
      match bind cfg mount gw0 st instanceID bid det with
      | (.ok _, st', _) => bindSeq cfg mount gw instanceID rest st'
      | (.error e, _, _) => .error e

/-- A sequence of Unbind calls, stopping at the first failure. -/
def unbindSeq (cfg : ControlConfig) (gw : Gateway) (instanceID : String) :
    List String → DynamicState → Except BErr DynamicState
  | [], st => .ok st
  | bid :: rest, st =>
      match unbind cfg gw st instanceID bid with
      | (.ok _, st', _) => unbindSeq cfg gw instanceID rest st'
      | (.error e, _, _) => .error e

/-- Well-formed bind details naming the given share: non-empty app guid,
decodable parameters, and mount options accepted by the configured mount
defaults. -/
def goodDetails (mount : MountConfig) (shareName : String) (det : BindDetails) : Prop :=
  det.appGUID ≠ "" ∧
  ∃ opts, det.rawParameters = .params opts ∧ opts.fileShareName = shareName ∧
    ∃ mc, mount.setEntries opts.toMap = .ok mc

/-- Gateway answers under which a bind of an already-reconciled share
succeeds: the share reported present, and the access key available. -/
def bindGatewayOk (gw : Gateway) (shareName : String) : Prop :=
  gw.hasFileShare shareName = .ok true ∧ ∃ k, gw.getAccessKey = .ok k

/-- Gateway answers under which the first bind of a share succeeds: every
gateway call made by the bind succeeds, with the share either existing
remotely (adoption) or being created under an allowing policy. -/
def firstBindGatewayOk (cfg : ControlConfig) (gw : Gateway) (shareName : String) : Prop :=
  (∃ k, gw.getAccessKey = .ok k) ∧
  ((gw.hasFileShare shareName = .ok true ∧ ∃ u, gw.getShareURL shareName = .ok u) ∨
   (gw.hasFileShare shareName = .ok false ∧ cfg.allowCreateFileShare = true ∧
    gw.createFileShare shareName = .ok () ∧ ∃ u, gw.getShareURL shareName = .ok u))

/-! ## Concrete fixtures for witnesses and counterexamples -/

def exCfg : ControlConfig :=
  { allowCreateStorageAccount := false, allowCreateFileShare := true,
    allowDeleteStorageAccount := false, allowDeleteFileShare := true }

def exCfgNoDelete : ControlConfig :=
  { exCfg with allowDeleteFileShare := false }

def exGwAllOk : Gateway :=
  { hasFileShare := fun _ => .ok true,
    createFileShare := fun _ => .ok (),
    deleteFileShare := fun _ => .ok (),
    getShareURL := fun s => .ok ("//exacct.file.core.windows.net/" ++ s),
    getAccessKey := .ok "EXAMPLEKEY",
    accountExists := .ok true,
    createAccount := .ok (),
    deleteAccount := .ok () }

def exGwFirstCreate : Gateway :=
  { exGwAllOk with hasFileShare := fun _ => .ok false }

def exGwDeleteFails : Gateway :=
  { exGwAllOk with deleteFileShare := fun _ => .error "connection reset" }

def exOpts : BindOptions :=
  { fileShareName := "s1", uid := "", gid := "", fileMode := "",
    dirMode := "", readonly := false, vers := "", mount := "" }

def exDetails : BindDetails :=
  { appGUID := "app-guid", planID := "plan-1", serviceID := "svc-1",
    rawParameters := .params exOpts }

def exMount : MountConfig :=
  { allowed := ["uid", "gid", "file_mode", "dir_mode", "readonly", "vers", "mount"],
    options := [("vers", "3.0")] }

def exInstance (fsl : List (String × FileShare)) : ServiceInstance :=
  { serviceID := "svc-1", planID := "plan-1", organizationGUID := "org-1",
    spaceGUID := "space-1", subscriptionID := "sub-1", resourceGroupName := "rg-1",
    storageAccountName := "exacct", useHTTPS := true, storageAccountStatus := "",
    isCreatedStorageAccount := false, fileShareList := fsl }

def exShareCreated : FileShare :=
  { isCreated := true, count := 1, url := "//exacct.file.core.windows.net/s1" }

def exShareAdopted : FileShare :=
  { isCreated := false, count := 1, url := "//exacct.file.core.windows.net/s1" }

/-- Store state with one instance "i1" holding the given share list, and one
binding "b1" for share "s1". -/
def exState (fsl : List (String × FileShare)) : DynamicState :=
  { instanceMap := [("i1", exInstance fsl)], shareMap := [("b1", exDetails)] }

/-- Store state with instance "i2" holding a broker-created share "s1" at
count 1 and a binding "b2" for it. -/
def exStateC5 : DynamicState :=
  { instanceMap := [("i2", exInstance [("s1", exShareCreated)])],
    shareMap := [("b2", exDetails)] }

def exProvConfig : Configuration :=
  { subscriptionID := "sub-1", resourceGroupName := "rg-1",
    storageAccountName := "exacct", useHTTPS := "", skuName := "", location := "",
    customDomainName := "", useSubDomain := "", enableEncryption := "" }

def exProvDetails : ProvisionDetails :=
  { serviceID := "svc-1", planID := "plan-1", organizationGUID := "org-1",
    spaceGUID := "space-1", rawParameters := .params exProvConfig }

/-- The instance with one share record replaced (the shape `handleBindShare`
and `handleUnbindShare` produce). -/
def instWithShare (inst : ServiceInstance) (shareName : String) (fs : FileShare) :
    ServiceInstance :=
  { inst with fileShareList := mapSet inst.fileShareList shareName fs }

/-- The instance with one share record dropped. -/
def instWithoutShare (inst : ServiceInstance) (shareName : String) : ServiceInstance :=
  { inst with fileShareList := mapErase inst.fileShareList shareName }

/-- Store state with instance "i1" holding no shares and no bindings yet. -/
def exStateC1 : DynamicState :=
  { instanceMap := [("i1", exInstance [])], shareMap := [] }

/-! ## Association-map lemmas -/

theorem mapLookup_set_self {α : Type} (m : List (String × α)) (k : String) (v : α) :
    mapLookup (mapSet m k v) k = some v := by
  induction m with
  | nil => simp [mapSet, mapLookup]
  | cons hd tl ih =>
      obtain ⟨k', v'⟩ := hd
      by_cases h : k' = k
      · simp [mapSet, mapLookup, h]
      · simp [mapSet, mapLookup, h, ih]

theorem mapLookup_set_ne {α : Type} (m : List (String × α)) (k k' : String) (v : α)
    (h : k ≠ k') : mapLookup (mapSet m k v) k' = mapLookup m k' := by
  induction m with
  | nil => simp [mapSet, mapLookup, h]
  | cons hd tl ih =>
      obtain ⟨k₀, v₀⟩ := hd
      by_cases h₀ : k₀ = k
      · subst h₀
        simp [mapSet, mapLookup, h]
      · simp only [mapSet, h₀, if_false]
        by_cases h₁ : k₀ = k'
        · simp [mapLookup, h₁]
        · simp [mapLookup, h₁, ih]

theorem mapLookup_erase_self {α : Type} (m : List (String × α)) (k : String) :
    mapLookup (mapErase m k) k = none := by
  induction m with
  | nil => simp [mapErase, mapLookup]
  | cons hd tl ih =>
      obtain ⟨k₀, v₀⟩ := hd
      by_cases h₀ : k₀ = k
      · simp [mapErase, h₀, ih]
      · simp [mapErase, mapLookup, h₀, ih]

theorem mapLookup_erase_ne {α : Type} (m : List (String × α)) (k k' : String)
    (h : k ≠ k') : mapLookup (mapErase m k) k' = mapLookup m k' := by
  induction m with
  | nil => simp [mapErase]
  | cons hd tl ih =>
      obtain ⟨k₀, v₀⟩ := hd
      by_cases h₀ : k₀ = k
      · subst h₀
        simp [mapErase, mapLookup, h, ih]
      · simp only [mapErase, h₀, if_false]
        by_cases h₁ : k₀ = k'
        · simp [mapLookup, h₁]
        · simp [mapLookup, h₁, ih]

/-! ## Claim C10 -/

/-- Claim C10: for every context, instance id and operationData string,
`LastOperation` returns the "unrecognized operationData" error and never a
successful value — last-operation polling is unsupported at the public
interface. -/
theorem C10_lastOperation_always_errors (st : DynamicState)
    (instanceID operationData : String) :
    lastOperation st instanceID operationData =
      .error (.msg "unrecognized operationData") := rfl

/-! ## Claim C8 -/

/-- Claim C8 (code bug): `GetLockForUpdate`, as called by Bind and Unbind
with `lockTimeoutInSeconds = 30`, binds the unrelated package constant
`timeoutInSeconds = 60` — not 30 — into the advisory-lock query, while the
acquisition-failure error message still names the lock and "30 seconds".
This theorem evaluates the embedded function at a failing input (the row
scan reports no rows, i.e. the lock was not granted). -/
theorem C8_lock_timeout_mismatch :
    (getLockForUpdate (fun _ _ => .noRows) "i1-s1" lockTimeoutInSeconds).2.lockTimeout =
        timeoutInSeconds ∧
    timeoutInSeconds = 60 ∧
    lockTimeoutInSeconds = 30 ∧
    (getLockForUpdate (fun _ _ => .noRows) "i1-s1" lockTimeoutInSeconds).1 =
      .error ("Cannot get the lock " ++ quote "i1-s1" ++ " for update in 30 seconds") :=
  ⟨rfl, rfl, rfl, rfl⟩

/-! ## Claim C2 -/

/-- Claim C2: when a share was adopted because it pre-existed remotely
(`IsCreated = false`), no Unbind — in particular none in which its count
reaches zero — ever issues the gateway `DeleteFileShare` call, regardless of
the delete-policy configuration. -/
theorem C2_adopted_share_never_deleted (cfg : ControlConfig) (gw : Gateway)
    (st : DynamicState) (instanceID bindingID : String)
    (inst : ServiceInstance) (det : BindDetails) (opts : BindOptions) (fs : FileShare)
    (hInst : mapLookup st.instanceMap instanceID = some inst)
    (hDet : mapLookup st.shareMap bindingID = some det)
    (hRaw : det.rawParameters = .params opts)
    (hFs : mapLookup inst.fileShareList opts.fileShareName = some fs)
    (hAd : fs.isCreated = false) (s : String) :
    Event.gwDeleteFileShare s ∉ (unbind cfg gw st instanceID bindingID).2.2 := by
  by_cases hc : fs.count - 1 > 0 <;>
    simp [unbind, retrieveServiceInstance, hInst, retrieveBindingDetails, hDet, hRaw,
      decodeBindOptions, handleUnbindShare, hFs, hAd, hc,
      updateServiceInstance, deleteBindingDetails]

/-- Witness for C2 at a concrete state: adopted share at count 1, delete
policy enabled, both unbind store mutations succeed. -/
theorem C2_witness :
    Event.gwDeleteFileShare "s1" ∉
      (unbind exCfg exGwAllOk (exState [("s1", exShareAdopted)]) "i1" "b1").2.2 :=
  C2_adopted_share_never_deleted exCfg exGwAllOk (exState [("s1", exShareAdopted)])
    "i1" "b1" (exInstance [("s1", exShareAdopted)]) exDetails exOpts exShareAdopted
    rfl rfl rfl rfl rfl "s1"

/-! ## Claim C3 -/

/-- Claim C3: on an Unbind that takes a broker-created share's count from 1
to 0, the gateway `DeleteFileShare` call is issued if and only if the
delete policy (`AllowDeleteFileShare`) is enabled; with the policy disabled
the call is never issued while the local record is still removed from the
instance's share list. -/
theorem C3_created_share_delete_iff_policy (cfg : ControlConfig) (gw : Gateway)
    (st : DynamicState) (instanceID bindingID : String)
    (inst : ServiceInstance) (det : BindDetails) (opts : BindOptions) (fs : FileShare)
    (hInst : mapLookup st.instanceMap instanceID = some inst)
    (hDet : mapLookup st.shareMap bindingID = some det)
    (hRaw : det.rawParameters = .params opts)
    (hFs : mapLookup inst.fileShareList opts.fileShareName = some fs)
    (hCr : fs.isCreated = true)
    (hCount : fs.count = 1) :
    (Event.gwDeleteFileShare opts.fileShareName ∈
        (unbind cfg gw st instanceID bindingID).2.2 ↔
      cfg.allowDeleteFileShare = true) ∧
    (cfg.allowDeleteFileShare = false →
      (unbind cfg gw st instanceID bindingID).1 = .ok () ∧
      ∃ inst',
        mapLookup (unbind cfg gw st instanceID bindingID).2.1.instanceMap instanceID =
          some inst' ∧
        mapLookup inst'.fileShareList opts.fileShareName = none) := by
  by_cases hp : cfg.allowDeleteFileShare
  · rcases hd : gw.deleteFileShare opts.fileShareName with e | u <;>
      simp [unbind, retrieveServiceInstance, hInst, retrieveBindingDetails, hDet, hRaw,
        decodeBindOptions, handleUnbindShare, hFs, hCr, hCount, hp, hd,
        updateServiceInstance, deleteBindingDetails]
  · constructor
    · simp [unbind, retrieveServiceInstance, hInst, retrieveBindingDetails, hDet, hRaw,
        decodeBindOptions, handleUnbindShare, hFs, hCr, hCount, hp,
        updateServiceInstance, deleteBindingDetails]
    · intro _
      refine ⟨?_, { inst with fileShareList := mapErase inst.fileShareList opts.fileShareName }, ?_, ?_⟩
      · simp [unbind, retrieveServiceInstance, hInst, retrieveBindingDetails, hDet, hRaw,
          decodeBindOptions, handleUnbindShare, hFs, hCr, hCount, hp,
          updateServiceInstance, deleteBindingDetails]
      · simp [unbind, retrieveServiceInstance, hInst, retrieveBindingDetails, hDet, hRaw,
          decodeBindOptions, handleUnbindShare, hFs, hCr, hCount, hp,
          updateServiceInstance, deleteBindingDetails, mapLookup_set_self]
      · exact mapLookup_erase_self inst.fileShareList opts.fileShareName

/-- Witness for C3 at a concrete state: broker-created share at count 1
with the delete policy disabled. -/
theorem C3_witness :
    (Event.gwDeleteFileShare "s1" ∈
        (unbind exCfgNoDelete exGwAllOk (exState [("s1", exShareCreated)]) "i1" "b1").2.2 ↔
      exCfgNoDelete.allowDeleteFileShare = true) ∧
    (exCfgNoDelete.allowDeleteFileShare = false →
      (unbind exCfgNoDelete exGwAllOk (exState [("s1", exShareCreated)]) "i1" "b1").1 = .ok () ∧
      ∃ inst',
        mapLookup (unbind exCfgNoDelete exGwAllOk (exState [("s1", exShareCreated)]) "i1" "b1").2.1.instanceMap "i1" =
          some inst' ∧
        mapLookup inst'.fileShareList "s1" = none) :=
  C3_created_share_delete_iff_policy exCfgNoDelete exGwAllOk
    (exState [("s1", exShareCreated)]) "i1" "b1"
    (exInstance [("s1", exShareCreated)]) exDetails exOpts exShareCreated
    rfl rfl rfl rfl rfl rfl

/-! ## Claim C4 -/

/-- Claim C4 counterexample: instance "i1" holds broker-created share "s1"
at count 1, the delete policy is enabled, and the gateway delete fails.
Unbind returns nil, but — contrary to the claim — the local `FileShare`
record is NOT removed: the store is left exactly as it was (the share is
still in the instance's share list and the binding record survives). -/
theorem C4_counterexample :
    (unbind exCfg exGwDeleteFails (exState [("s1", exShareCreated)]) "i1" "b1").1 = .ok () ∧
    (unbind exCfg exGwDeleteFails (exState [("s1", exShareCreated)]) "i1" "b1").2.1 =
      exState [("s1", exShareCreated)] ∧
    mapLookup (exInstance [("s1", exShareCreated)]).fileShareList "s1" = some exShareCreated :=
  ⟨rfl, rfl, rfl⟩

/-- Claim C4 as amended: when a broker-created share's count reaches zero,
the delete policy allows deletion, and the gateway `DeleteFileShare` call
fails, Unbind still returns nil (the error is logged and discarded) — but
the local `FileShare` record is NOT removed: the unbind-share step aborts
before the removal, so the instance update and the binding-details deletion
are skipped and the store is left unchanged; only the failed delete call
was issued. -/
theorem C4_delete_failure_state_unchanged (cfg : ControlConfig) (gw : Gateway)
    (st : DynamicState) (instanceID bindingID : String)
    (inst : ServiceInstance) (det : BindDetails) (opts : BindOptions) (fs : FileShare)
    (e : String)
    (hInst : mapLookup st.instanceMap instanceID = some inst)
    (hDet : mapLookup st.shareMap bindingID = some det)
    (hRaw : det.rawParameters = .params opts)
    (hFs : mapLookup inst.fileShareList opts.fileShareName = some fs)
    (hCr : fs.isCreated = true)
    (hCount : fs.count = 1)
    (hAllow : cfg.allowDeleteFileShare = true)
    (hDel : gw.deleteFileShare opts.fileShareName = .error e) :
    unbind cfg gw st instanceID bindingID =
      (.ok (), st, [Event.gwDeleteFileShare opts.fileShareName]) := by
  simp [unbind, retrieveServiceInstance, hInst, retrieveBindingDetails, hDet, hRaw,
    decodeBindOptions, handleUnbindShare, hFs, hCr, hCount, hAllow, hDel]

/-- Witness for the amended C4 at a concrete state. -/
theorem C4_witness :
    unbind exCfg exGwDeleteFails (exState [("s1", exShareCreated)]) "i1" "b1" =
      (.ok (), exState [("s1", exShareCreated)], [Event.gwDeleteFileShare "s1"]) :=
  C4_delete_failure_state_unchanged exCfg exGwDeleteFails
    (exState [("s1", exShareCreated)]) "i1" "b1"
    (exInstance [("s1", exShareCreated)]) exDetails exOpts exShareCreated
    "connection reset" rfl rfl rfl rfl rfl rfl rfl rfl

/-! ## Claim C5 -/

/-- Claim C5 counterexample: instance "i2" holds broker-created share "s1"
at count 1 under binding "b2"; the delete policy is enabled and the gateway
delete fails.  Unbind returns nil, yet the `BindingDetails` record for "b2"
is still in the store — a nil-returning Unbind that did not delete its
binding record, contradicting the claim. -/
theorem C5_counterexample :
    (unbind exCfg exGwDeleteFails exStateC5 "i2" "b2").1 = .ok () ∧
    mapLookup (unbind exCfg exGwDeleteFails exStateC5 "i2" "b2").2.1.shareMap "b2" =
      some exDetails :=
  ⟨rfl, rfl⟩

/-- Claim C5 as amended: an Unbind whose unbind-share step succeeds (the
named share is present and, when the share is broker-created with the
delete policy enabled, the gateway delete succeeds) returns nil and has
removed the `BindingDetails` record by the time it returns; when the
unbind-share step fails, Unbind still returns nil but the record is
retained. -/
theorem C5_unbind_success_removes_binding (cfg : ControlConfig) (gw : Gateway)
    (st : DynamicState) (instanceID bindingID : String)
    (inst : ServiceInstance) (det : BindDetails) (opts : BindOptions) (fs : FileShare)
    (hInst : mapLookup st.instanceMap instanceID = some inst)
    (hDet : mapLookup st.shareMap bindingID = some det)
    (hRaw : det.rawParameters = .params opts)
    (hFs : mapLookup inst.fileShareList opts.fileShareName = some fs)
    (hOk : fs.count - 1 > 0 ∨ (fs.isCreated && cfg.allowDeleteFileShare) = false ∨
      gw.deleteFileShare opts.fileShareName = .ok ()) :
    (unbind cfg gw st instanceID bindingID).1 = .ok () ∧
    mapLookup (unbind cfg gw st instanceID bindingID).2.1.shareMap bindingID = none := by
  rcases hOk with hc | hnc | hdel
  · simp [unbind, retrieveServiceInstance, hInst, retrieveBindingDetails, hDet, hRaw,
      decodeBindOptions, handleUnbindShare, hFs, hc,
      updateServiceInstance, deleteBindingDetails, mapLookup_erase_self]
  · by_cases hc : fs.count - 1 > 0 <;>
      simp [unbind, retrieveServiceInstance, hInst, retrieveBindingDetails, hDet, hRaw,
        decodeBindOptions, handleUnbindShare, hFs, hc, hnc,
        updateServiceInstance, deleteBindingDetails, mapLookup_erase_self]
  · by_cases hc : fs.count - 1 > 0 <;>
      by_cases hb : (fs.isCreated && cfg.allowDeleteFileShare) = true <;>
        simp [unbind, retrieveServiceInstance, hInst, retrieveBindingDetails, hDet, hRaw,
          decodeBindOptions, handleUnbindShare, hFs, hc, hb, hdel,
          updateServiceInstance, deleteBindingDetails, mapLookup_erase_self]

/-- Witness for the amended C5 at a concrete state: broker-created share at
count 1 with a succeeding gateway delete. -/
theorem C5_witness :
    (unbind exCfg exGwAllOk (exState [("s1", exShareCreated)]) "i1" "b1").1 = .ok () ∧
    mapLookup (unbind exCfg exGwAllOk (exState [("s1", exShareCreated)]) "i1" "b1").2.1.shareMap "b1" =
      none :=
  C5_unbind_success_removes_binding exCfg exGwAllOk (exState [("s1", exShareCreated)])
    "i1" "b1" (exInstance [("s1", exShareCreated)]) exDetails exOpts exShareCreated
    rfl rfl rfl rfl (Or.inr (Or.inr rfl))

/-! ## Claim C6 -/

/-- Claim C6: a Bind with a well-formed request whose binding id already has
stored binding details returns the binding-already-exists conflict error,
and by then the share's incremented reference count has already been
persisted via `UpdateServiceInstance` — the increment is not rolled back. -/
theorem C6_conflict_after_persisted_increment (cfg : ControlConfig)
    (mount : MountConfig) (gw : Gateway) (st : DynamicState)
    (instanceID bindingID : String) (det existing : BindDetails)
    (opts : BindOptions) (mc : MountConfig) (inst : ServiceInstance) (fs : FileShare)
    (hApp : det.appGUID ≠ "")
    (hRaw : det.rawParameters = .params opts)
    (hName : opts.fileShareName ≠ "")
    (hMc : mount.setEntries opts.toMap = .ok mc)
    (hInst : mapLookup st.instanceMap instanceID = some inst)
    (hFs : mapLookup inst.fileShareList opts.fileShareName = some fs)
    (hHas : gw.hasFileShare opts.fileShareName = .ok true)
    (hConf : mapLookup st.shareMap bindingID = some existing) :
    (bind cfg mount gw st instanceID bindingID det).1 = .error .bindingAlreadyExists ∧
    (∃ inst',
      mapLookup (bind cfg mount gw st instanceID bindingID det).2.1.instanceMap instanceID = some inst' ∧
      mapLookup inst'.fileShareList opts.fileShareName = some { fs with count := fs.count + 1 }) ∧
    Event.stUpdateInstance instanceID ∈ (bind cfg mount gw st instanceID bindingID det).2.2 ∧
    mapLookup (bind cfg mount gw st instanceID bindingID det).2.1.shareMap bindingID = some existing := by
  refine ⟨?_,
    ⟨instWithShare inst opts.fileShareName { fs with count := fs.count + 1 }, ?_, ?_⟩, ?_, ?_⟩ <;>
    simp [bind, hApp, hRaw, decodeBindOptions, hName, hMc, retrieveServiceInstance, hInst,
      handleBindShare, hHas, hFs, updateServiceInstance, isBindingConflict, hConf,
      instWithShare, mapLookup_set_self]

/-- Witness for C6 at a concrete state: share "s1" already at count 1,
binding id "b1" already stored. -/
theorem C6_witness :
    (bind exCfg exMount exGwAllOk (exState [("s1", exShareAdopted)]) "i1" "b1" exDetails).1 =
      .error .bindingAlreadyExists ∧
    (∃ inst',
      mapLookup (bind exCfg exMount exGwAllOk (exState [("s1", exShareAdopted)]) "i1" "b1" exDetails).2.1.instanceMap "i1" =
        some inst' ∧
      mapLookup inst'.fileShareList "s1" = some { exShareAdopted with count := exShareAdopted.count + 1 }) ∧
    Event.stUpdateInstance "i1" ∈
      (bind exCfg exMount exGwAllOk (exState [("s1", exShareAdopted)]) "i1" "b1" exDetails).2.2 ∧
    mapLookup (bind exCfg exMount exGwAllOk (exState [("s1", exShareAdopted)]) "i1" "b1" exDetails).2.1.shareMap "b1" =
      some exDetails :=
  C6_conflict_after_persisted_increment exCfg exMount exGwAllOk
    (exState [("s1", exShareAdopted)]) "i1" "b1" exDetails exDetails exOpts
    { exMount with options := [("vers", "3.0")] }
    (exInstance [("s1", exShareAdopted)]) exShareAdopted
    (by decide) rfl (by decide) rfl rfl rfl rfl rfl

/-! ## Claim C7 -/

/-- Claim C7 counterexample: with share "s1" already present at count 1 in
the instance's share list and the gateway reporting it present, the
share-reconciliation step (`handleBindShare`) still issues the
`HasFileShare` existence check — its gateway-call log is the non-empty
`[gwHasFileShare "s1"]`, contradicting "performs no Azure gateway calls
(no existence check ... is issued)". -/
theorem C7_counterexample :
    (handleBindShare exCfg exGwAllOk (exInstance [("s1", exShareAdopted)]) "s1").2 =
      [Event.gwHasFileShare "s1"] ∧
    (handleBindShare exCfg exGwAllOk (exInstance [("s1", exShareAdopted)]) "s1").2 ≠ [] :=
  ⟨rfl, by decide⟩

/-- Claim C7 as amended: for a bind whose named share is already in the
instance's share list with the gateway reporting it present, the
share-reconciliation step increments the count and issues exactly one
gateway call — the `HasFileShare` existence check; no URL retrieval or
share creation is issued (the cached URL is reused unchanged). -/
theorem C7_present_share_increments_with_existence_check (cfg : ControlConfig)
    (gw : Gateway) (inst : ServiceInstance) (shareName : String) (fs : FileShare)
    (hFs : mapLookup inst.fileShareList shareName = some fs)
    (hHas : gw.hasFileShare shareName = .ok true) :
    (handleBindShare cfg gw inst shareName).1 =
      .ok (instWithShare inst shareName { fs with count := fs.count + 1 }) ∧
    (handleBindShare cfg gw inst shareName).2 = [Event.gwHasFileShare shareName] := by
  simp [handleBindShare, hHas, hFs, instWithShare]

/-- Witness for the amended C7 at a concrete state. -/
theorem C7_witness :
    (handleBindShare exCfg exGwAllOk (exInstance [("s1", exShareAdopted)]) "s1").1 =
      .ok (instWithShare (exInstance [("s1", exShareAdopted)]) "s1"
        { exShareAdopted with count := exShareAdopted.count + 1 }) ∧
    (handleBindShare exCfg exGwAllOk (exInstance [("s1", exShareAdopted)]) "s1").2 =
      [Event.gwHasFileShare "s1"] :=
  C7_present_share_increments_with_existence_check exCfg exGwAllOk
    (exInstance [("s1", exShareAdopted)]) "s1" exShareAdopted rfl rfl

/-! ## Single-step lemmas for bind/unbind sequences (towards C1) -/

/-- One successful bind on a share already in the instance's share list:
the count is incremented and the binding details are stored. -/
theorem bind_present_step (cfg : ControlConfig) (mount : MountConfig) (gw : Gateway)
    (st : DynamicState) (iid bid shareName : String) (det : BindDetails)
    (inst : ServiceInstance) (fs : FileShare)
    (hInst : mapLookup st.instanceMap iid = some inst)
    (hFs : mapLookup inst.fileShareList shareName = some fs)
    (hDet : goodDetails mount shareName det)
    (hGw : bindGatewayOk gw shareName)
    (hName : shareName ≠ "")
    (hFresh : mapLookup st.shareMap bid = none) :
    (∀ e, (bind cfg mount gw st iid bid det).1 ≠ .error e) ∧
    (bind cfg mount gw st iid bid det).2.1 =
      ⟨mapSet st.instanceMap iid (instWithShare inst shareName { fs with count := fs.count + 1 }),
       mapSet st.shareMap bid det⟩ := by
  obtain ⟨hApp, opts, hRaw, hShare, mc, hMc⟩ := hDet
  obtain ⟨hHas, k, hKey⟩ := hGw
  subst hShare
  constructor
  · intro e
    simp [bind, hApp, hRaw, decodeBindOptions, hName, hMc, retrieveServiceInstance, hInst,
      handleBindShare, hHas, hFs, updateServiceInstance, isBindingConflict, hFresh,
      createBindingDetails, hKey, instWithShare]
  · simp [bind, hApp, hRaw, decodeBindOptions, hName, hMc, retrieveServiceInstance, hInst,
      handleBindShare, hHas, hFs, updateServiceInstance, isBindingConflict, hFresh,
      createBindingDetails, hKey, instWithShare]

/-- The first successful bind of a share absent from the instance's share
list: the record appears with count 1 (adopted or created depending on the
gateway's existence answer). -/
theorem bind_first_step (cfg : ControlConfig) (mount : MountConfig) (gw : Gateway)
    (st : DynamicState) (iid bid shareName : String) (det : BindDetails)
    (inst : ServiceInstance)
    (hInst : mapLookup st.instanceMap iid = some inst)
    (hAbsent : mapLookup inst.fileShareList shareName = none)
    (hDet : goodDetails mount shareName det)
    (hGw : firstBindGatewayOk cfg gw shareName)
    (hName : shareName ≠ "")
    (hFresh : mapLookup st.shareMap bid = none) :
    ∃ flag url,
      (∀ e, (bind cfg mount gw st iid bid det).1 ≠ .error e) ∧
      (bind cfg mount gw st iid bid det).2.1 =
        ⟨mapSet st.instanceMap iid (instWithShare inst shareName ⟨flag, 1, url⟩),
         mapSet st.shareMap bid det⟩ := by
  obtain ⟨hApp, opts, hRaw, hShare, mc, hMc⟩ := hDet
  obtain ⟨⟨k, hKey⟩, hCase⟩ := hGw
  subst hShare
  rcases hCase with ⟨hHas, u, hUrl⟩ | ⟨hHas, hAllow, hCreate, u, hUrl⟩
  · refine ⟨false, u, fun e => ?_, ?_⟩ <;>
      simp [bind, hApp, hRaw, decodeBindOptions, hName, hMc, retrieveServiceInstance, hInst,
        handleBindShare, hHas, hAbsent, hUrl, updateServiceInstance, isBindingConflict, hFresh,
        createBindingDetails, hKey, instWithShare]
  · refine ⟨true, u, fun e => ?_, ?_⟩ <;>
      simp [bind, hApp, hRaw, decodeBindOptions, hName, hMc, retrieveServiceInstance, hInst,
        handleBindShare, hHas, hAbsent, hAllow, hCreate, hUrl, updateServiceInstance,
        isBindingConflict, hFresh, createBindingDetails, hKey, instWithShare]

/-- One successful unbind while other bindings remain: the count drops by
one and the binding record is deleted. -/
theorem unbind_decrement_step (cfg : ControlConfig) (gw : Gateway)
    (st : DynamicState) (iid bid : String)
    (inst : ServiceInstance) (det : BindDetails) (opts : BindOptions) (fs : FileShare)
    (hInst : mapLookup st.instanceMap iid = some inst)
    (hDet : mapLookup st.shareMap bid = some det)
    (hRaw : det.rawParameters = .params opts)
    (hFs : mapLookup inst.fileShareList opts.fileShareName = some fs)
    (hPos : fs.count - 1 > 0) :
    (unbind cfg gw st iid bid).1 = .ok () ∧
    (unbind cfg gw st iid bid).2.1 =
      ⟨mapSet st.instanceMap iid (instWithShare inst opts.fileShareName { fs with count := fs.count - 1 }),
       mapErase st.shareMap bid⟩ := by
  constructor <;>
    simp [unbind, retrieveServiceInstance, hInst, retrieveBindingDetails, hDet, hRaw,
      decodeBindOptions, handleUnbindShare, hFs, hPos, updateServiceInstance,
      deleteBindingDetails, instWithShare]

/-- The last successful unbind of a share (count reaching zero) with a
succeeding gateway delete: the share record and the binding record are both
removed. -/
theorem unbind_remove_step (cfg : ControlConfig) (gw : Gateway)
    (st : DynamicState) (iid bid : String)
    (inst : ServiceInstance) (det : BindDetails) (opts : BindOptions) (fs : FileShare)
    (hInst : mapLookup st.instanceMap iid = some inst)
    (hDet : mapLookup st.shareMap bid = some det)
    (hRaw : det.rawParameters = .params opts)
    (hFs : mapLookup inst.fileShareList opts.fileShareName = some fs)
    (hZero : ¬ fs.count - 1 > 0)
    (hDel : gw.deleteFileShare opts.fileShareName = .ok ()) :
    (unbind cfg gw st iid bid).1 = .ok () ∧
    (unbind cfg gw st iid bid).2.1 =
      ⟨mapSet st.instanceMap iid (instWithoutShare inst opts.fileShareName),
       mapErase st.shareMap bid⟩ := by
  constructor <;>
    by_cases hb : (fs.isCreated && cfg.allowDeleteFileShare) = true <;>
      simp [unbind, retrieveServiceInstance, hInst, retrieveBindingDetails, hDet, hRaw,
        decodeBindOptions, handleUnbindShare, hFs, hZero, hb, hDel, updateServiceInstance,
        deleteBindingDetails, instWithoutShare]

/-- Iterated binds of a share already present in the instance's share list:
each successful bind adds one to the count and stores its binding details,
leaving unrelated binding records untouched. -/
theorem bindSeq_present (cfg : ControlConfig) (mount : MountConfig) (gw : Gateway)
    (iid shareName : String) (hName : shareName ≠ "") (hGw : bindGatewayOk gw shareName) :
    ∀ (calls : List (String × BindDetails)) (st : DynamicState) (inst : ServiceInstance)
      (fs : FileShare),
      mapLookup st.instanceMap iid = some inst →
      mapLookup inst.fileShareList shareName = some fs →
      (∀ c ∈ calls, goodDetails mount shareName c.2) →
      (∀ c ∈ calls, mapLookup st.shareMap c.1 = none) →
      (calls.map Prod.fst).Nodup →
      ∃ st' inst' fs',
        bindSeq cfg mount gw iid calls st = .ok st' ∧
        mapLookup st'.instanceMap iid = some inst' ∧
        mapLookup inst'.fileShareList shareName = some fs' ∧
        fs'.isCreated = fs.isCreated ∧
        fs'.url = fs.url ∧
        fs'.count = fs.count + calls.length ∧
        (∀ c ∈ calls, mapLookup st'.shareMap c.1 = some c.2) ∧
        (∀ b, (∀ c ∈ calls, c.1 ≠ b) →
          mapLookup st'.shareMap b = mapLookup st.shareMap b) := by
  intro calls
  induction calls with
  | nil =>
      intro st inst fs hInst hFs _ _ _
      refine ⟨st, inst, fs, rfl, hInst, hFs, rfl, rfl, by simp, ?_, ?_⟩
      · intro c hc
        simp at hc
      · intro b _
        rfl
  | cons c rest ih =>
      intro st inst fs hInst hFs hDets hFresh hNodup
      obtain ⟨bid, det⟩ := c
      simp only [List.map_cons] at hNodup
      obtain ⟨hbid, hNodup'⟩ := List.nodup_cons.mp hNodup
      have hne : ∀ x ∈ rest, x.1 ≠ bid := by
        intro x hx h
        exact hbid (h ▸ List.mem_map_of_mem Prod.fst hx)
      obtain ⟨hok, hstate⟩ := bind_present_step cfg mount gw st iid bid shareName det inst fs
        hInst hFs (hDets _ (List.mem_cons_self _ _)) hGw hName
        (hFresh _ (List.mem_cons_self _ _))
      rcases hres : bind cfg mount gw st iid bid det with ⟨r1, st1, ev1⟩
      rw [hres] at hok hstate
      dsimp only at hok hstate
      rcases r1 with e | b
      · exact absurd rfl (hok e)
      subst hstate
      have hInst1 := mapLookup_set_self st.instanceMap iid
        (instWithShare inst shareName { fs with count := fs.count + 1 })
      have hFs1 : mapLookup (instWithShare inst shareName
          { fs with count := fs.count + 1 }).fileShareList shareName =
          some { fs with count := fs.count + 1 } := by
        simp [instWithShare, mapLookup_set_self]
      have hDets1 : ∀ x ∈ rest, goodDetails mount shareName x.2 :=
        fun x hx => hDets x (List.mem_cons_of_mem _ hx)
      have hFresh1 : ∀ x ∈ rest, mapLookup (mapSet st.shareMap bid det) x.1 = none := by
        intro x hx
        rw [mapLookup_set_ne st.shareMap bid x.1 det (fun h => hne x hx h.symm)]
        exact hFresh x (List.mem_cons_of_mem _ hx)
      obtain ⟨st', inst', fs', h1, h2, h3, h4, h5, h6, h7, h8⟩ :=
        ih ⟨mapSet st.instanceMap iid (instWithShare inst shareName
              { fs with count := fs.count + 1 }), mapSet st.shareMap bid det⟩
          (instWithShare inst shareName { fs with count := fs.count + 1 })
          { fs with count := fs.count + 1 } hInst1 hFs1 hDets1 hFresh1 hNodup'
      have h6' : fs'.count = fs.count + 1 + (rest.length : Int) := h6
      refine ⟨st', inst', fs', ?_, h2, h3, h4, h5, ?_, ?_, ?_⟩
      · simp only [bindSeq, hres]
        exact h1
      · simp only [List.length_cons]
        push_cast
        omega
      · intro x hx
        rcases List.mem_cons.mp hx with rfl | hx'
        · rw [h8 bid hne]
          exact mapLookup_set_self st.shareMap bid det
        · exact h7 x hx'
      · intro b₀ hb₀
        have hbne : bid ≠ b₀ := hb₀ (bid, det) (List.mem_cons_self _ _)
        rw [h8 b₀ (fun x hx => hb₀ x (List.mem_cons_of_mem _ hx))]
        exact mapLookup_set_ne st.shareMap bid b₀ det hbne

/-- Iterated unbinds of a share held at count `n` by `n` or more bindings:
each unbind decrements the count; the unbind that reaches zero removes the
record. -/
theorem unbindSeq_drain (cfg : ControlConfig) (gw : Gateway) (iid shareName : String)
    (hDel : gw.deleteFileShare shareName = .ok ()) :
    ∀ (bids : List String) (st : DynamicState) (inst : ServiceInstance)
      (fs : FileShare) (n : Nat),
      mapLookup st.instanceMap iid = some inst →
      mapLookup inst.fileShareList shareName = some fs →
      fs.count = (n : Int) →
      1 ≤ n →
      bids.length ≤ n →
      bids.Nodup →
      (∀ b ∈ bids, ∃ det opts, mapLookup st.shareMap b = some det ∧
        det.rawParameters = .params opts ∧ opts.fileShareName = shareName) →
      ∃ st' inst',
        unbindSeq cfg gw iid bids st = .ok st' ∧
        mapLookup st'.instanceMap iid = some inst' ∧
        (bids.length < n →
          ∃ fs', mapLookup inst'.fileShareList shareName = some fs' ∧
            fs'.count = ((n - bids.length : Nat) : Int)) ∧
        (bids.length = n → mapLookup inst'.fileShareList shareName = none) := by
  intro bids
  induction bids with
  | nil =>
      intro st inst fs n hInst hFs hc hOne _ _ _
      refine ⟨st, inst, rfl, hInst, ?_, ?_⟩
      · intro _
        refine ⟨fs, hFs, ?_⟩
        simpa using hc
      · intro h0
        exfalso
        simp only [List.length_nil] at h0
        omega
  | cons b rest ih =>
      intro st inst fs n hInst hFs hc hOne hlen hnd hdets
      obtain ⟨hbmem, hnd'⟩ := List.nodup_cons.mp hnd
      obtain ⟨det, opts, hDetb, hRawb, hShb⟩ := hdets b (List.mem_cons_self _ _)
      have hFsb : mapLookup inst.fileShareList opts.fileShareName = some fs := by
        rw [hShb]
        exact hFs
      simp only [List.length_cons] at hlen
      by_cases htwo : 2 ≤ n
      · have hPos : fs.count - 1 > 0 := by omega
        obtain ⟨hok, hstate⟩ := unbind_decrement_step cfg gw st iid b inst det opts fs
          hInst hDetb hRawb hFsb hPos
        rw [hShb] at hstate
        rcases hres : unbind cfg gw st iid b with ⟨r1, st1, ev1⟩
        rw [hres] at hok hstate
        dsimp only at hok hstate
        subst hok
        subst hstate
        have hInst1 := mapLookup_set_self st.instanceMap iid
          (instWithShare inst shareName { fs with count := fs.count - 1 })
        have hFs1 : mapLookup (instWithShare inst shareName
            { fs with count := fs.count - 1 }).fileShareList shareName =
            some { fs with count := fs.count - 1 } := by
          simp [instWithShare, mapLookup_set_self]
        have hc1 : fs.count - 1 = ((n - 1 : Nat) : Int) := by omega
        have hdets1 : ∀ x ∈ rest, ∃ det opts,
            mapLookup (mapErase st.shareMap b) x = some det ∧
            det.rawParameters = .params opts ∧ opts.fileShareName = shareName := by
          intro x hx
          obtain ⟨d, o, hd, hr, hs⟩ := hdets x (List.mem_cons_of_mem _ hx)
          refine ⟨d, o, ?_, hr, hs⟩
          rw [mapLookup_erase_ne st.shareMap b x (fun h => hbmem (h ▸ hx))]
          exact hd
        obtain ⟨st', inst', h1', h2', h3', h4'⟩ :=
          ih ⟨mapSet st.instanceMap iid (instWithShare inst shareName
                { fs with count := fs.count - 1 }), mapErase st.shareMap b⟩
            (instWithShare inst shareName { fs with count := fs.count - 1 })
            { fs with count := fs.count - 1 } (n - 1)
            hInst1 hFs1 hc1 (by omega) (by omega) hnd' hdets1
        refine ⟨st', inst', ?_, h2', ?_, ?_⟩
        · simp only [unbindSeq, hres]
          exact h1'
        · intro hlt
          simp only [List.length_cons] at hlt ⊢
          have hlt' : rest.length < n - 1 := by omega
          obtain ⟨fs', hfs', hcnt⟩ := h3' hlt'
          exact ⟨fs', hfs', by omega⟩
        · intro heq
          simp only [List.length_cons] at heq
          exact h4' (by omega)
      · have hZero : ¬ fs.count - 1 > 0 := by omega
        have hDelb : gw.deleteFileShare opts.fileShareName = .ok () := by
          rw [hShb]
          exact hDel
        obtain ⟨hok, hstate⟩ := unbind_remove_step cfg gw st iid b inst det opts fs
          hInst hDetb hRawb hFsb hZero hDelb
        rw [hShb] at hstate
        have hrest : rest = [] := List.eq_nil_of_length_eq_zero (by omega)
        subst hrest
        rcases hres : unbind cfg gw st iid b with ⟨r1, st1, ev1⟩
        rw [hres] at hok hstate
        dsimp only at hok hstate
        subst hok
        subst hstate
        refine ⟨⟨mapSet st.instanceMap iid (instWithoutShare inst shareName),
            mapErase st.shareMap b⟩, instWithoutShare inst shareName, ?_, ?_, ?_, ?_⟩
        · simp only [unbindSeq, hres]
        · exact mapLookup_set_self st.instanceMap iid (instWithoutShare inst shareName)
        · intro hlt
          exfalso
          simp only [List.length_cons, List.length_nil] at hlt
          omega
        · intro _
          simp [instWithoutShare, mapLookup_erase_self]

/-! ## Claim C1 -/

/-- Claim C1: starting from a stored instance without the named share, a
sequence of N successful Bind calls with distinct fresh binding ids —
every gateway call succeeding and `HasFileShare` reporting the share
present on every bind after the first — followed by M successful Unbind
calls of the first M of those bindings (N ≥ M ≥ 0) leaves the share's
reference count at N−M, and the `FileShare` record exists in the
instance's share list if and only if N−M > 0. -/
theorem C1_bind_unbind_refcount (cfg : ControlConfig) (mount : MountConfig)
    (gw0 gw : Gateway) (st0 : DynamicState) (iid shareName : String)
    (inst0 : ServiceInstance) (calls : List (String × BindDetails)) (M : Nat)
    (hName : shareName ≠ "")
    (hInst : mapLookup st0.instanceMap iid = some inst0)
    (hAbsent : mapLookup inst0.fileShareList shareName = none)
    (hM : M ≤ calls.length)
    (hDets : ∀ c ∈ calls, goodDetails mount shareName c.2)
    (hFresh : ∀ c ∈ calls, mapLookup st0.shareMap c.1 = none)
    (hNodup : (calls.map Prod.fst).Nodup)
    (hGw0 : firstBindGatewayOk cfg gw0 shareName)
    (hGw : bindGatewayOk gw shareName)
    (hDel : gw.deleteFileShare shareName = .ok ()) :
    ∃ st1 st2 inst',
      runBinds cfg mount gw0 gw iid calls st0 = .ok st1 ∧
      unbindSeq cfg gw iid ((calls.take M).map Prod.fst) st1 = .ok st2 ∧
      mapLookup st2.instanceMap iid = some inst' ∧
      (M < calls.length →
        ∃ fs, mapLookup inst'.fileShareList shareName = some fs ∧
          fs.count = ((calls.length - M : Nat) : Int)) ∧
      (M = calls.length → mapLookup inst'.fileShareList shareName = none) := by
  cases calls with
  | nil =>
      have hM0 : M = 0 := by simpa using hM
      subst hM0
      refine ⟨st0, st0, inst0, rfl, rfl, hInst, ?_, ?_⟩
      · intro h
        simp at h
      · intro _
        exact hAbsent
  | cons c rest =>
      obtain ⟨bid, det⟩ := c
      have hMlen : M ≤ rest.length + 1 := by simpa using hM
      simp only [List.map_cons] at hNodup
      obtain ⟨hbid, hNodup'⟩ := List.nodup_cons.mp hNodup
      have hne : ∀ x ∈ rest, x.1 ≠ bid := by
        intro x hx h
        exact hbid (h ▸ List.mem_map_of_mem Prod.fst hx)
      obtain ⟨flag, url, hok, hstate⟩ := bind_first_step cfg mount gw0 st0 iid bid shareName
        det inst0 hInst hAbsent (hDets _ (List.mem_cons_self _ _)) hGw0 hName
        (hFresh _ (List.mem_cons_self _ _))
      rcases hres : bind cfg mount gw0 st0 iid bid det with ⟨r1, stA, ev1⟩
      rw [hres] at hok hstate
      dsimp only at hok hstate
      rcases r1 with e | bb
      · exact absurd rfl (hok e)
      subst hstate
      have hInstA := mapLookup_set_self st0.instanceMap iid
        (instWithShare inst0 shareName ⟨flag, 1, url⟩)
      have hFsA : mapLookup (instWithShare inst0 shareName
          ⟨flag, 1, url⟩).fileShareList shareName = some ⟨flag, 1, url⟩ := by
        simp [instWithShare, mapLookup_set_self]
      have hDets' : ∀ x ∈ rest, goodDetails mount shareName x.2 :=
        fun x hx => hDets x (List.mem_cons_of_mem _ hx)
      have hFresh' : ∀ x ∈ rest, mapLookup (mapSet st0.shareMap bid det) x.1 = none := by
        intro x hx
        rw [mapLookup_set_ne st0.shareMap bid x.1 det (fun h => hne x hx h.symm)]
        exact hFresh x (List.mem_cons_of_mem _ hx)
      obtain ⟨stB, instB, fsB, hseq, hIB, hFsB, hCrB, hUrlB, hCntB, hBindsB, hFrameB⟩ :=
        bindSeq_present cfg mount gw iid shareName hName hGw rest
          ⟨mapSet st0.instanceMap iid (instWithShare inst0 shareName ⟨flag, 1, url⟩),
           mapSet st0.shareMap bid det⟩
          (instWithShare inst0 shareName ⟨flag, 1, url⟩) ⟨flag, 1, url⟩
          hInstA hFsA hDets' hFresh' hNodup'
      have hCntB0 : fsB.count = 1 + (rest.length : Int) := hCntB
      have hCntB' : fsB.count = ((rest.length + 1 : Nat) : Int) := by omega
      have hAll : ∀ x ∈ (bid, det) :: rest, mapLookup stB.shareMap x.1 = some x.2 := by
        intro x hx
        rcases List.mem_cons.mp hx with rfl | hx'
        · rw [hFrameB bid hne]
          exact mapLookup_set_self st0.shareMap bid det
        · exact hBindsB x hx'
      have hbl : ((((bid, det) :: rest).take M).map Prod.fst).length = M := by
        simp [List.length_take]
        omega
      have hNodupFull : (bid :: rest.map Prod.fst).Nodup :=
        List.nodup_cons.mpr ⟨hbid, hNodup'⟩
      have hbnodup : ((((bid, det) :: rest).take M).map Prod.fst).Nodup := by
        rw [List.map_take]
        exact List.Nodup.sublist (List.take_sublist _ _) (by simpa using hNodupFull)
      have hdetsU : ∀ x ∈ (((bid, det) :: rest).take M).map Prod.fst,
          ∃ d o, mapLookup stB.shareMap x = some d ∧
            d.rawParameters = .params o ∧ o.fileShareName = shareName := by
        intro x hx
        obtain ⟨cpair, hc, rfl⟩ := List.mem_map.mp hx
        have hc' : cpair ∈ (bid, det) :: rest := List.take_subset _ _ hc
        obtain ⟨_, o, hr, hs, _⟩ := hDets cpair hc'
        exact ⟨cpair.2, o, hAll cpair hc', hr, hs⟩
      obtain ⟨st2, inst', hu1, hu2, hu3, hu4⟩ :=
        unbindSeq_drain cfg gw iid shareName hDel
          ((((bid, det) :: rest).take M).map Prod.fst) stB instB fsB (rest.length + 1)
          hIB hFsB hCntB' (by omega) (by omega) hbnodup hdetsU
      refine ⟨stB, st2, inst', ?_, hu1, hu2, ?_, ?_⟩
      · simp only [runBinds, hres]
        exact hseq
      · intro hlt
        simp only [List.length_cons] at hlt ⊢
        obtain ⟨fs, hfs, hcnt⟩ := hu3 (by omega)
        rw [hbl] at hcnt
        exact ⟨fs, hfs, hcnt⟩
      · intro heq
        simp only [List.length_cons] at heq
        exact hu4 (by omega)

/-- Witness for C1 at a concrete run: two binds ("b1", "b2") of share "s1"
(created by the broker on the first bind) followed by one unbind, leaving
count 1 and the record present. -/
theorem C1_witness :
    ∃ st1 st2 inst',
      runBinds exCfg exMount exGwFirstCreate exGwAllOk "i1"
        [("b1", exDetails), ("b2", exDetails)] exStateC1 = .ok st1 ∧
      unbindSeq exCfg exGwAllOk "i1"
        (([("b1", exDetails), ("b2", exDetails)].take 1).map Prod.fst) st1 = .ok st2 ∧
      mapLookup st2.instanceMap "i1" = some inst' ∧
      (1 < [("b1", exDetails), ("b2", exDetails)].length →
        ∃ fs, mapLookup inst'.fileShareList "s1" = some fs ∧
          fs.count = (([("b1", exDetails), ("b2", exDetails)].length - 1 : Nat) : Int)) ∧
      (1 = [("b1", exDetails), ("b2", exDetails)].length →
        mapLookup inst'.fileShareList "s1" = none) :=
  C1_bind_unbind_refcount exCfg exMount exGwFirstCreate exGwAllOk exStateC1 "i1" "s1"
    (exInstance []) [("b1", exDetails), ("b2", exDetails)] 1
    (by decide) rfl rfl (by decide)
    (by
      intro c hc
      simp only [List.mem_cons, List.not_mem_nil, or_false] at hc
      rcases hc with rfl | rfl
      · exact ⟨by decide, exOpts, rfl, rfl, exMount, rfl⟩
      · exact ⟨by decide, exOpts, rfl, rfl, exMount, rfl⟩)
    (by
      intro c hc
      simp only [List.mem_cons, List.not_mem_nil, or_false] at hc
      rcases hc with rfl | rfl <;> rfl)
    (by decide)
    ⟨⟨"EXAMPLEKEY", rfl⟩, Or.inr ⟨rfl, rfl, rfl, "//exacct.file.core.windows.net/s1", rfl⟩⟩
    ⟨rfl, "EXAMPLEKEY", rfl⟩ rfl

/-! ## Claim C9 -/

/-- The storage-account resolution step only talks to the gateway: its event
log never contains a store mutation. -/
theorem getStorageAccount_events (cfg : ControlConfig) (gw : Gateway)
    (c : Configuration) (e : Event) (he : e ∈ (getStorageAccount cfg gw c).2) :
    e = .gwAccountExists ∨ e = .gwCreateAccount := by
  unfold getStorageAccount at he
  rcases hn : newStorageAccount c with f | sa <;> simp only [hn] at he
  · simp at he
  · rcases hx : gw.accountExists with fx | b <;> simp only [hx] at he
    · simp at he
      tauto
    · cases b
      · by_cases hp : cfg.allowCreateStorageAccount = true
        · rcases ha : gw.createAccount with fa | u <;> simp [hp, ha] at he <;> tauto
        · simp [Bool.not_eq_true] at hp
          simp [hp] at he
          tauto
      · simp at he
        tauto

/-- Claim C9: a Provision call whose instance id is already stored — and
which is otherwise well-formed enough to reach the conflict check (its
parameters decode with all required fields present and the storage-account
resolution succeeds) — fails with the instance-already-exists conflict
error, leaves the store exactly as it was, and never invokes
`CreateServiceInstance`. -/
theorem C9_provision_conflict (cfg : ControlConfig)
    (defaultSubscriptionID defaultResourceGroupName : String) (gw : Gateway)
    (st : DynamicState) (instanceID : String) (details : ProvisionDetails)
    (c : Configuration) (existing : ServiceInstance)
    (hRaw : details.rawParameters = .params c)
    (hSub : c.subscriptionID ≠ "")
    (hRg : c.resourceGroupName ≠ "")
    (hAcct : c.storageAccountName ≠ "")
    (hGw : ∃ sa ev, getStorageAccount cfg gw c = (.ok sa, ev))
    (hEx : mapLookup st.instanceMap instanceID = some existing) :
    (provision cfg defaultSubscriptionID defaultResourceGroupName gw st instanceID details).1 =
      .error .instanceAlreadyExists ∧
    (provision cfg defaultSubscriptionID defaultResourceGroupName gw st instanceID details).2.1 =
      st ∧
    Event.stCreateInstance instanceID ∉
      (provision cfg defaultSubscriptionID defaultResourceGroupName gw st instanceID details).2.2 := by
  obtain ⟨sa, ev, hGw⟩ := hGw
  refine ⟨?_, ?_, ?_⟩ <;>
    simp [provision, hRaw, hSub, hRg, hAcct, Configuration.validate, hGw,
      isServiceInstanceConflict, hEx]
  intro he
  rcases getStorageAccount_events cfg gw c _ (by rw [hGw]; exact he) with h | h <;> cases h

/-- Witness for C9 at a concrete state: instance "i1" already provisioned. -/
theorem C9_witness :
    (provision exCfg "defsub" "defrg" exGwAllOk (exState []) "i1" exProvDetails).1 =
      .error .instanceAlreadyExists ∧
    (provision exCfg "defsub" "defrg" exGwAllOk (exState []) "i1" exProvDetails).2.1 =
      exState [] ∧
    Event.stCreateInstance "i1" ∉
      (provision exCfg "defsub" "defrg" exGwAllOk (exState []) "i1" exProvDetails).2.2 :=
  C9_provision_conflict exCfg "defsub" "defrg" exGwAllOk (exState []) "i1"
    exProvDetails exProvConfig (exInstance [])
    rfl (by decide) (by decide) (by decide)
    ⟨{ subscriptionID := "sub-1", resourceGroupName := "rg-1",
       storageAccountName := "exacct", useHTTPS := true,
       isCreatedStorageAccount := false }, [.gwAccountExists], rfl⟩ rfl

end AzureFileBroker
